import Mathlib

/-!
Shallow embedding of the play-time accounting core of
`ESP8266_GamingTimeClock.ino` (time/duration handling, persistence of the
ten play-time counters on the JSON data file, and the Denon AVR callbacks),
together with theorems checking the natural-language specification against it.

Modelling conventions:
* The ten `uint32_t` global counters (`time_ps5_today_mins` .. `time_switch_sum_mins`,
  lines 131-140 of the sketch) become a structure of ten `Nat` fields; the C `++`
  increment wraps modulo `2^32`, modelled explicitly by `u32inc`.
* The JSON data file is modelled as `Option FileContent`: `none` is a missing
  file, `FileContent.bad` a file whose content fails to parse
  (`deserializeJson` returns an error), and `FileContent.ok d` a parsed JSON
  object, represented as an order-preserving association list (ArduinoJson's
  `data[key] = v` updates an existing key in place and appends a new one).
  Filesystem writes are assumed to succeed; the hardware-failure early returns
  (`LittleFS.open` failing on a writable medium, `serializeJson` returning 0)
  are outside the model.
* Clock fields (`t_hour`, `t_minute`, `t_day`, `t_month`, `t_weekday`) are `Nat`
  parameters; they are only read by the accounting code.
* The AVR callback payloads (`strncmp` against the `ON`/`OFF` and
  `AVR_INPUT_PS5`/`AVR_INPUT_SWITCH` strings of `DenonCommands.h`, a library
  header not part of the accounting sources) are modelled as an abstract
  power message and as string equality against the two configured input
  identifiers, passed as parameters.
-/

/-- Modulo-2^32 increment, the behaviour of `++` on a `uint32_t` counter. -/
def u32inc (x : Nat) : Nat := (x + 1) % 2 ^ 32

/-- The ten global play-time counters (sketch lines 131-140). -/
structure Counters where
  time_ps5_today_mins : Nat
  time_ps5_week_mins : Nat
  time_ps5_month_mins : Nat
  time_ps5_year_mins : Nat
  time_ps5_sum_mins : Nat
  time_switch_today_mins : Nat
  time_switch_week_mins : Nat
  time_switch_month_mins : Nat
  time_switch_year_mins : Nat
  time_switch_sum_mins : Nat
  deriving DecidableEq, Repr

/-- The counters at boot: C globals are zero-initialized. -/
def zeroCounters : Counters := ⟨0, 0, 0, 0, 0, 0, 0, 0, 0, 0⟩

-- Screen state machine constants (sketch lines 147-154).
def SM_SCREEN_OFF : Nat := 0
def SM_SCREEN_IDLE : Nat := 1
def SM_SCREEN_INFO : Nat := 2
def SM_SCREEN_STATS_ALL : Nat := 3
def SM_SCREEN_PLAY_PS5 : Nat := 10
def SM_SCREEN_STATS_PS5 : Nat := 11
def SM_SCREEN_PLAY_SWITCH : Nat := 20
def SM_SCREEN_STATS_SWITCH : Nat := 21

-- User parameters used by the accounting logic (sketch lines 72-74).
def CLOCK_ENDSESSION_HOUR : Nat := 6
def CLOCK_STARTWEEK_DAY : Nat := 1

-- JSON keys of the data file (sketch lines 104-113).
def TIME_PS5_TODAY : String := "ps_t"
def TIME_PS5_WEEK : String := "ps_w"
def TIME_PS5_MONTH : String := "ps_m"
def TIME_PS5_YEAR : String := "ps_y"
def TIME_PS5_SUM : String := "ps_s"
def TIME_SWITCH_TODAY : String := "sw_t"
def TIME_SWITCH_WEEK : String := "sw_w"
def TIME_SWITCH_MONTH : String := "sw_m"
def TIME_SWITCH_YEAR : String := "sw_y"
def TIME_SWITCH_SUM : String := "sw_s"

/-- A parsed JSON object: ordered association list of key/value pairs. -/
abbrev Doc := List (String × Nat)

/-- Content of the data file: either a parsed JSON object or unparseable bytes. -/
inductive FileContent where
  | ok (d : Doc)
  | bad
  deriving DecidableEq, Repr

/-- The data file on LittleFS; `none` means the file does not exist. -/
abbrev FsFile := Option FileContent

/-- Key lookup in a JSON object (first occurrence). -/
def docGet : Doc → String → Option Nat
  | [], _ => none
  | (k, v) :: rest, key => if k = key then some v else docGet rest key

/-- ArduinoJson assignment `data[key] = val`: update in place or append. -/
def docSet : Doc → String → Nat → Doc
  | [], key, val => [(key, val)]
  | (k, v) :: rest, key, val =>
      if k = key then (key, val) :: rest else (k, v) :: docSet rest key val

/-- The ten assignments of `fs_save_data_file` (sketch lines 310-319), in
source order. -/
def updateDoc (c : Counters) (d : Doc) : Doc :=
  docSet (docSet (docSet (docSet (docSet (docSet (docSet (docSet (docSet
    (docSet d TIME_PS5_TODAY c.time_ps5_today_mins)
    TIME_PS5_WEEK c.time_ps5_week_mins)
    TIME_PS5_MONTH c.time_ps5_month_mins)
    TIME_PS5_YEAR c.time_ps5_year_mins)
    TIME_PS5_SUM c.time_ps5_sum_mins)
    TIME_SWITCH_TODAY c.time_switch_today_mins)
    TIME_SWITCH_WEEK c.time_switch_week_mins)
    TIME_SWITCH_MONTH c.time_switch_month_mins)
    TIME_SWITCH_YEAR c.time_switch_year_mins)
    TIME_SWITCH_SUM c.time_switch_sum_mins

/-- Reading the ten keys of a parsed record into the counters
(sketch lines 353-362): a counter is overwritten only when its key is present. -/
def loadDoc (c : Counters) (d : Doc) : Counters where
  time_ps5_today_mins := (docGet d TIME_PS5_TODAY).getD c.time_ps5_today_mins
  time_ps5_week_mins := (docGet d TIME_PS5_WEEK).getD c.time_ps5_week_mins
  time_ps5_month_mins := (docGet d TIME_PS5_MONTH).getD c.time_ps5_month_mins
  time_ps5_year_mins := (docGet d TIME_PS5_YEAR).getD c.time_ps5_year_mins
  time_ps5_sum_mins := (docGet d TIME_PS5_SUM).getD c.time_ps5_sum_mins
  time_switch_today_mins := (docGet d TIME_SWITCH_TODAY).getD c.time_switch_today_mins
  time_switch_week_mins := (docGet d TIME_SWITCH_WEEK).getD c.time_switch_week_mins
  time_switch_month_mins := (docGet d TIME_SWITCH_MONTH).getD c.time_switch_month_mins
  time_switch_year_mins := (docGet d TIME_SWITCH_YEAR).getD c.time_switch_year_mins
  time_switch_sum_mins := (docGet d TIME_SWITCH_SUM).getD c.time_switch_sum_mins

/-- Model of `fs_create_data_file` (sketch lines 272-288): writes the two
bytes of an empty JSON object, replacing whatever the file held. -/
def fs_create_data_file (_f : FsFile) : FsFile × Bool :=
  (some (FileContent.ok []), true)

/-- Model of `fs_save_data_file` (sketch lines 290-329): open `r+` (creating
an empty record first when the file is missing), parse the existing content,
return without writing when it fails to parse, otherwise assign the ten keys
and rewrite the file in place (`seek 0`, `truncate`, serialize). The counter
globals are only read, never written, by this function. -/
def fs_save_data_file (c : Counters) (f : FsFile) : FsFile :=
  match f with
  | none => some (FileContent.ok (updateDoc c []))
  | some FileContent.bad => some FileContent.bad
  | some (FileContent.ok d) => some (FileContent.ok (updateDoc c d))

/-- Model of `fs_load_data_file` (sketch lines 331-364): when the file is
missing, create an empty record and re-read it (an empty object has no keys,
so the counters keep their in-memory values); when the content fails to
parse, return leaving everything unchanged; otherwise overwrite exactly the
counters whose key is present. The function always returns (duration 0). -/
def fs_load_data_file (c : Counters) (f : FsFile) : Counters × FsFile :=
  match f with
  | none => (c, some (FileContent.ok []))
  | some FileContent.bad => (c, some FileContent.bad)
  | some (FileContent.ok d) => (loadDoc c d, some (FileContent.ok d))

/-- Model of `fs_reset_data_file` (sketch lines 366-378): zero the ten
in-memory counters, then save. -/
def fs_reset_data_file (_c : Counters) (f : FsFile) : Counters × FsFile :=
  (zeroCounters, fs_save_data_file zeroCounters f)

/-- The every-minute increment block of `time_handle` (sketch lines 392-415):
when the minute timer has elapsed, the screen state selects which input's five
counters are incremented; the returned flag is `doSave`. -/
def minuteTick (scr : Nat) (c : Counters) : Counters × Bool :=
  if scr = SM_SCREEN_PLAY_PS5 then
    ({ c with
        time_ps5_today_mins := u32inc c.time_ps5_today_mins
        time_ps5_week_mins := u32inc c.time_ps5_week_mins
        time_ps5_month_mins := u32inc c.time_ps5_month_mins
        time_ps5_year_mins := u32inc c.time_ps5_year_mins
        time_ps5_sum_mins := u32inc c.time_ps5_sum_mins }, true)
  else if scr = SM_SCREEN_PLAY_SWITCH then
    ({ c with
        time_switch_today_mins := u32inc c.time_switch_today_mins
        time_switch_week_mins := u32inc c.time_switch_week_mins
        time_switch_month_mins := u32inc c.time_switch_month_mins
        time_switch_year_mins := u32inc c.time_switch_year_mins
        time_switch_sum_mins := u32inc c.time_switch_sum_mins }, true)
  else (c, false)

/-- The week-reset branch of the session-end block (sketch lines 422-425). -/
def rolloverWeek (w : Nat) (c : Counters) : Counters :=
  if w = CLOCK_STARTWEEK_DAY then
    { c with time_ps5_week_mins := 0, time_switch_week_mins := 0 }
  else c

/-- The month/year-reset branch of the session-end block (sketch lines 427-435). -/
def rolloverMonthYear (d mo : Nat) (c : Counters) : Counters :=
  if d = 1 then
    if mo = 0 then
      { c with
          time_ps5_month_mins := 0, time_switch_month_mins := 0
          time_ps5_year_mins := 0, time_switch_year_mins := 0 }
    else { c with time_ps5_month_mins := 0, time_switch_month_mins := 0 }
  else c

/-- The session-end (day rollover) block of `time_handle`
(sketch lines 417-436): whenever the clock reads the session-end hour at
minute 0 the today counters of both inputs are zeroed, the week counters when
the weekday is the configured week-start day, the month counters on the first
day of a month and additionally the year counters when the month field is 0;
the returned flag records that the block ran and set `doSave`. -/
def dayRollover (h mi d mo w : Nat) (c : Counters) : Counters × Bool :=
  if h = CLOCK_ENDSESSION_HOUR ∧ mi = 0 then
    (rolloverMonthYear d mo (rolloverWeek w
      { c with time_ps5_today_mins := 0, time_switch_today_mins := 0 }), true)
  else (c, false)

/-- Model of `time_handle` (sketch lines 390-438): the minute-tick block runs
when the minute timer elapsed (`everyMinute_tick < millis()`, passed in as
`minuteElapsed`), the rollover block runs on the current clock reading, and
the file is saved when either block set `doSave`. -/
def timeHandle (minuteElapsed : Bool) (scr h mi d mo w : Nat)
    (s : Counters × FsFile) : Counters × FsFile :=
  let t := if minuteElapsed then minuteTick scr s.1 else (s.1, false)
  let r := dayRollover h mi d mo w t.1
  (r.1, if t.2 || r.2 then fs_save_data_file r.1 s.2 else s.2)

/-- A sequence of `n` minute-tick firings of `time_handle` at a fixed screen
state and clock reading. -/
def minuteTicks (scr h mi d mo w : Nat) : Nat → Counters × FsFile → Counters × FsFile
  | 0, s => s
  | Nat.succ n, s => minuteTicks scr h mi d mo w n (timeHandle true scr h mi d mo w s)

/-- Model of `denon_inputChanged` (sketch lines 846-866): save the data file
first, then set the screen according to which configured input identifier the
reported one equals (`strncmp` modelled as string equality); anything else
selects the idle screen. The counters are only read (by the save). -/
def denon_inputChanged (inputPS5 inputSwitch response : String)
    (c : Counters) (f : FsFile) : Nat × Counters × FsFile :=
  let f1 := fs_save_data_file c f
  if response = inputPS5 then (SM_SCREEN_PLAY_PS5, c, f1)
  else if response = inputSwitch then (SM_SCREEN_PLAY_SWITCH, c, f1)
  else (SM_SCREEN_IDLE, c, f1)

/-- Power notifications delivered to `denon_powerChanged`, abstracting the
`strncmp` against the `ON`/`OFF` strings of `DenonCommands.h`. -/
inductive PowerMsg where
  | powerOn
  | powerOff
  | powerOther
  deriving DecidableEq

/-- Model of `denon_powerChanged` (sketch lines 823-844): on power-on, reload
the data file and request the selected input from the receiver (the
`DenonAvr.set` network call, recorded here as the final boolean); the screen
state is not touched. On power-off, save the data file and leave the play
screen for the matching stats screen (idle otherwise). -/
def denon_powerChanged (p : PowerMsg) (scr : Nat) (c : Counters) (f : FsFile) :
    Nat × Counters × FsFile × Bool :=
  match p with
  | PowerMsg.powerOn =>
      let r := fs_load_data_file c f
      (scr, r.1, r.2, true)
  | PowerMsg.powerOff =>
      let f1 := fs_save_data_file c f
      ((if scr = SM_SCREEN_PLAY_PS5 then SM_SCREEN_STATS_PS5
        else if scr = SM_SCREEN_PLAY_SWITCH then SM_SCREEN_STATS_SWITCH
        else SM_SCREEN_IDLE), c, f1, false)
  | PowerMsg.powerOther => (scr, c, f, false)

/-- The Active Input of the specification, as determined by the screen state:
the play screens are the only states in which a tick is accounted to an input. -/
inductive ActiveInput where
  | ps5
  | switch
  | noneActive
  deriving DecidableEq

/-- Interpretation of the screen state machine as the spec's Active Input. -/
def activeOf (scr : Nat) : ActiveInput :=
  if scr = SM_SCREEN_PLAY_PS5 then ActiveInput.ps5
  else if scr = SM_SCREEN_PLAY_SWITCH then ActiveInput.switch
  else ActiveInput.noneActive

/-- Configured identifier of the PS5 input (`BLURAY_DISC` of the Denon
protocol header, a library file not under the accounting sources); only its
distinctness from the Switch identifier matters to the logic. -/
def AVR_INPUT_PS5 : String := "SIBD"

/-- Configured identifier of the Nintendo Switch input (`GAME` of the Denon
protocol header). -/
def AVR_INPUT_SWITCH : String := "SIGAME"

/-- Scenario B of the specification: three minute-tick firings of
`time_handle` on the PS5 play screen, then an input-changed notification
reporting the Switch input. -/
def scenarioB (inputPS5 inputSwitch : String) (h mi d mo w : Nat)
    (s : Counters × FsFile) : Nat × Counters × FsFile :=
  denon_inputChanged inputPS5 inputSwitch inputSwitch
    (minuteTicks SM_SCREEN_PLAY_PS5 h mi d mo w 3 s).1
    (minuteTicks SM_SCREEN_PLAY_PS5 h mi d mo w 3 s).2

/-- C1: at the session-end trigger (hour 6, minute 0), the rollover step of
`time_handle` zeroes `today` of both inputs unconditionally, zeroes `week`
exactly when the weekday is the configured week-start day, zeroes `month`
exactly when the day-of-month is 1, zeroes `year` exactly when additionally
the month field is 0, and never changes the two lifetime (sum) counters. -/
theorem dayRollover_resets (d mo w : Nat) (c : Counters) :
    ((dayRollover CLOCK_ENDSESSION_HOUR 0 d mo w c).1).time_ps5_today_mins = 0 ∧
    ((dayRollover CLOCK_ENDSESSION_HOUR 0 d mo w c).1).time_switch_today_mins = 0 ∧
    ((dayRollover CLOCK_ENDSESSION_HOUR 0 d mo w c).1).time_ps5_week_mins =
      (if w = CLOCK_STARTWEEK_DAY then 0 else c.time_ps5_week_mins) ∧
    ((dayRollover CLOCK_ENDSESSION_HOUR 0 d mo w c).1).time_switch_week_mins =
      (if w = CLOCK_STARTWEEK_DAY then 0 else c.time_switch_week_mins) ∧
    ((dayRollover CLOCK_ENDSESSION_HOUR 0 d mo w c).1).time_ps5_month_mins =
      (if d = 1 then 0 else c.time_ps5_month_mins) ∧
    ((dayRollover CLOCK_ENDSESSION_HOUR 0 d mo w c).1).time_switch_month_mins =
      (if d = 1 then 0 else c.time_switch_month_mins) ∧
    ((dayRollover CLOCK_ENDSESSION_HOUR 0 d mo w c).1).time_ps5_year_mins =
      (if d = 1 ∧ mo = 0 then 0 else c.time_ps5_year_mins) ∧
    ((dayRollover CLOCK_ENDSESSION_HOUR 0 d mo w c).1).time_switch_year_mins =
      (if d = 1 ∧ mo = 0 then 0 else c.time_switch_year_mins) ∧
    ((dayRollover CLOCK_ENDSESSION_HOUR 0 d mo w c).1).time_ps5_sum_mins =
      c.time_ps5_sum_mins ∧
    ((dayRollover CLOCK_ENDSESSION_HOUR 0 d mo w c).1).time_switch_sum_mins =
      c.time_switch_sum_mins := by
  unfold dayRollover rolloverWeek rolloverMonthYear
  split_ifs <;> simp_all

/-- C7: applying the day-rollover step twice with identical clock parameters
leaves the same ten counters as applying it once. -/
theorem dayRollover_idem (h mi d mo w : Nat) (c : Counters) :
    (dayRollover h mi d mo w (dayRollover h mi d mo w c).1).1 =
      (dayRollover h mi d mo w c).1 := by
  unfold dayRollover rolloverWeek rolloverMonthYear
  split_ifs <;> rfl

/-- Looking up the key just set yields the value just assigned. -/
theorem docGet_docSet_same (d : Doc) (k : String) (v : Nat) :
    docGet (docSet d k v) k = some v := by
  induction d with
  | nil => simp [docGet, docSet]
  | cons p rest ih =>
      obtain ⟨k1, v1⟩ := p
      by_cases hk : k1 = k <;> simp [docGet, docSet, hk, ih]

/-- Setting one key leaves the lookup of any other key unchanged. -/
theorem docGet_docSet_other (d : Doc) (k q : String) (v : Nat) (h : q ≠ k) :
    docGet (docSet d k v) q = docGet d q := by
  induction d with
  | nil => simp [docGet, docSet, Ne.symm h]
  | cons p rest ih =>
      obtain ⟨k1, v1⟩ := p
      by_cases hk : k1 = k
      · subst hk
        simp [docGet, docSet, Ne.symm h]
      · simp [docGet, docSet, hk, ih]

/-- After the ten assignments of `fs_save_data_file`, each of the ten keys
looks up to the corresponding current in-memory counter. -/
theorem updateDoc_lookups (c : Counters) (d : Doc) :
    docGet (updateDoc c d) TIME_PS5_TODAY = some c.time_ps5_today_mins ∧
    docGet (updateDoc c d) TIME_PS5_WEEK = some c.time_ps5_week_mins ∧
    docGet (updateDoc c d) TIME_PS5_MONTH = some c.time_ps5_month_mins ∧
    docGet (updateDoc c d) TIME_PS5_YEAR = some c.time_ps5_year_mins ∧
    docGet (updateDoc c d) TIME_PS5_SUM = some c.time_ps5_sum_mins ∧
    docGet (updateDoc c d) TIME_SWITCH_TODAY = some c.time_switch_today_mins ∧
    docGet (updateDoc c d) TIME_SWITCH_WEEK = some c.time_switch_week_mins ∧
    docGet (updateDoc c d) TIME_SWITCH_MONTH = some c.time_switch_month_mins ∧
    docGet (updateDoc c d) TIME_SWITCH_YEAR = some c.time_switch_year_mins ∧
    docGet (updateDoc c d) TIME_SWITCH_SUM = some c.time_switch_sum_mins := by
  refine ⟨?_, ?_, ?_, ?_, ?_, ?_, ?_, ?_, ?_, ?_⟩ <;>
    simp [updateDoc, TIME_PS5_TODAY, TIME_PS5_WEEK, TIME_PS5_MONTH,
      TIME_PS5_YEAR, TIME_PS5_SUM, TIME_SWITCH_TODAY, TIME_SWITCH_WEEK,
      TIME_SWITCH_MONTH, TIME_SWITCH_YEAR, TIME_SWITCH_SUM,
      docGet_docSet_same, docGet_docSet_other]

/-- A save on a missing or parseable file writes the ten assignments over
some previous object, leaving a parseable file. -/
theorem fs_save_ok (c : Counters) (f : FsFile) (h : f ≠ some FileContent.bad) :
    ∃ d0, fs_save_data_file c f = some (FileContent.ok (updateDoc c d0)) := by
  match f with
  | none => exact ⟨[], rfl⟩
  | some FileContent.bad => exact absurd rfl h
  | some (FileContent.ok d) => exact ⟨d, rfl⟩

/-- A save never turns a missing or parseable file into an unparseable one. -/
theorem fs_save_not_bad (c : Counters) (f : FsFile) (h : f ≠ some FileContent.bad) :
    fs_save_data_file c f ≠ some FileContent.bad := by
  obtain ⟨d0, hd0⟩ := fs_save_ok c f h
  simp [hd0]

/-- C3 counterexample: with the file missing and a nonzero counter in memory
(the power-on situation), loading does not zero the counters; and with an
existing file whose content fails to parse, loading writes no fresh empty
record — the file stays unparseable. -/
theorem fs_load_no_recovery_cex :
    ((fs_load_data_file
        { zeroCounters with time_ps5_today_mins := 5 } none).1).time_ps5_today_mins ≠ 0 ∧
    (fs_load_data_file zeroCounters (some FileContent.bad)).2 = some FileContent.bad := by
  exact ⟨by decide, rfl⟩

/-- C3 amended: when the data file is missing, `fs_load_data_file` creates a
fresh empty record and leaves the counters at their in-memory values — all
ten zero at startup, where the globals are zero-initialized; when the file
exists but its content fails to parse, it returns normally leaving both the
counters and the file unchanged, writing nothing. In both cases the function
returns (it never crashes). -/
theorem fs_load_missing_or_corrupt (c : Counters) :
    fs_load_data_file c none = (c, some (FileContent.ok [])) ∧
    fs_load_data_file c (some FileContent.bad) = (c, some FileContent.bad) ∧
    fs_load_data_file zeroCounters none = (zeroCounters, some (FileContent.ok [])) := by
  exact ⟨rfl, rfl, rfl⟩

/-- C4 counterexample: when the previous content of the data file does not
parse, `fs_save_data_file` writes nothing: with `time_ps5_today_mins = 7` in
memory the file still holds the unparseable content afterwards, and loading
it back yields 0, not 7 — the saved state was not persisted. -/
theorem fs_save_corrupt_cex :
    fs_save_data_file { zeroCounters with time_ps5_today_mins := 7 }
        (some FileContent.bad) = some FileContent.bad ∧
    ((fs_load_data_file zeroCounters
        (fs_save_data_file { zeroCounters with time_ps5_today_mins := 7 }
          (some FileContent.bad))).1).time_ps5_today_mins ≠ 7 := by
  exact ⟨rfl, by decide⟩

/-- C4 amended: when the previous content of the data file parses as a JSON
object (or the file is missing, in which case an empty record is created
first), `fs_save_data_file` rewrites the document in place so that each of
the ten counter keys maps to the current in-memory value, independent of the
keys' previous values; keys other than the ten are preserved from the
previous content rather than removed; when the previous content fails to
parse, the function returns without writing and the document is unchanged. -/
theorem fs_save_overwrites (c : Counters) (d : Doc) :
    fs_save_data_file c (some (FileContent.ok d)) =
      some (FileContent.ok (updateDoc c d)) ∧
    fs_save_data_file c none = some (FileContent.ok (updateDoc c [])) ∧
    docGet (updateDoc c d) TIME_PS5_TODAY = some c.time_ps5_today_mins ∧
    docGet (updateDoc c d) TIME_PS5_WEEK = some c.time_ps5_week_mins ∧
    docGet (updateDoc c d) TIME_PS5_MONTH = some c.time_ps5_month_mins ∧
    docGet (updateDoc c d) TIME_PS5_YEAR = some c.time_ps5_year_mins ∧
    docGet (updateDoc c d) TIME_PS5_SUM = some c.time_ps5_sum_mins ∧
    docGet (updateDoc c d) TIME_SWITCH_TODAY = some c.time_switch_today_mins ∧
    docGet (updateDoc c d) TIME_SWITCH_WEEK = some c.time_switch_week_mins ∧
    docGet (updateDoc c d) TIME_SWITCH_MONTH = some c.time_switch_month_mins ∧
    docGet (updateDoc c d) TIME_SWITCH_YEAR = some c.time_switch_year_mins ∧
    docGet (updateDoc c d) TIME_SWITCH_SUM = some c.time_switch_sum_mins ∧
    fs_save_data_file c (some FileContent.bad) = some FileContent.bad := by
  obtain ⟨h1, h2, h3, h4, h5, h6, h7, h8, h9, h10⟩ := updateDoc_lookups c d
  exact ⟨rfl, rfl, h1, h2, h3, h4, h5, h6, h7, h8, h9, h10, rfl⟩

/-- C5: starting from the zero-initialized counters of a fresh boot, loading
a parseable record yields, for each of the ten counters, the stored value
when its key is present and 0 when it is missing; in particular the record
with keys `ps_t = 5`, `sw_t = 0`, `ps_w = 60` loads to exactly those three
values with every other counter 0. -/
theorem fs_load_missing_keys (d : Doc) :
    ((fs_load_data_file zeroCounters (some (FileContent.ok d))).1).time_ps5_today_mins
        = (docGet d TIME_PS5_TODAY).getD 0 ∧
    ((fs_load_data_file zeroCounters (some (FileContent.ok d))).1).time_ps5_week_mins
        = (docGet d TIME_PS5_WEEK).getD 0 ∧
    ((fs_load_data_file zeroCounters (some (FileContent.ok d))).1).time_ps5_month_mins
        = (docGet d TIME_PS5_MONTH).getD 0 ∧
    ((fs_load_data_file zeroCounters (some (FileContent.ok d))).1).time_ps5_year_mins
        = (docGet d TIME_PS5_YEAR).getD 0 ∧
    ((fs_load_data_file zeroCounters (some (FileContent.ok d))).1).time_ps5_sum_mins
        = (docGet d TIME_PS5_SUM).getD 0 ∧
    ((fs_load_data_file zeroCounters (some (FileContent.ok d))).1).time_switch_today_mins
        = (docGet d TIME_SWITCH_TODAY).getD 0 ∧
    ((fs_load_data_file zeroCounters (some (FileContent.ok d))).1).time_switch_week_mins
        = (docGet d TIME_SWITCH_WEEK).getD 0 ∧
    ((fs_load_data_file zeroCounters (some (FileContent.ok d))).1).time_switch_month_mins
        = (docGet d TIME_SWITCH_MONTH).getD 0 ∧
    ((fs_load_data_file zeroCounters (some (FileContent.ok d))).1).time_switch_year_mins
        = (docGet d TIME_SWITCH_YEAR).getD 0 ∧
    ((fs_load_data_file zeroCounters (some (FileContent.ok d))).1).time_switch_sum_mins
        = (docGet d TIME_SWITCH_SUM).getD 0 ∧
    (fs_load_data_file zeroCounters (some (FileContent.ok
        [(TIME_PS5_TODAY, 5), (TIME_SWITCH_TODAY, 0), (TIME_PS5_WEEK, 60)]))).1 =
      { zeroCounters with time_ps5_today_mins := 5, time_ps5_week_mins := 60 } := by
  refine ⟨rfl, rfl, rfl, rfl, rfl, rfl, rfl, rfl, rfl, rfl, by decide⟩

/-- C10: while the stored record is corrupt (its content fails to parse),
`fs_save_data_file` returns without writing — the file is unchanged and the
in-memory counters, which the function never writes, are untouched — and the
zeroing performed by `fs_reset_data_file` reaches memory but is not
persisted: the file still holds the unparseable content afterwards. -/
theorem fs_corrupt_never_persisted (c : Counters) :
    fs_save_data_file c (some FileContent.bad) = some FileContent.bad ∧
    fs_reset_data_file c (some FileContent.bad) =
      (zeroCounters, some FileContent.bad) := by
  exact ⟨rfl, rfl⟩

/-- C6 counterexample: two successive polls of the day-rollover step with the
clock still reading 06:00 both execute the reset body (both set `doSave`):
the gate is the bare test of the current hour and minute, with no
edge-detection state, so the body does not run at most once per trigger
minute. -/
theorem dayRollover_every_poll_cex :
    (dayRollover 6 0 15 4 3 zeroCounters).2 = true ∧
    (dayRollover 6 0 15 4 3 (dayRollover 6 0 15 4 3 zeroCounters).1).2 = true := by
  exact ⟨rfl, rfl⟩

/-- C6 amended: the reset body of `time_handle` runs on every poll whose
clock reading is the session-end hour at minute 0 — its gate depends only on
the current hour and minute, never on a previous observation — and each such
poll also performs a save of the data file (even without a minute tick); the
counters nevertheless end as after a single execution, by idempotence. -/
theorem dayRollover_fires_every_poll (h mi d mo w : Nat) (c : Counters) :
    ((dayRollover h mi d mo w c).2 = true ↔
      (h = CLOCK_ENDSESSION_HOUR ∧ mi = 0)) ∧
    (∀ f : FsFile,
      (timeHandle false SM_SCREEN_IDLE CLOCK_ENDSESSION_HOUR 0 d mo w (c, f)).2 =
        fs_save_data_file (dayRollover CLOCK_ENDSESSION_HOUR 0 d mo w c).1 f) := by
  constructor
  · unfold dayRollover
    split_ifs with hc
    · simp [hc]
    · simp [hc]
  · intro f
    unfold timeHandle dayRollover
    simp

/-- C9 counterexample: a power-on notification arriving while the PS5 play
screen is active leaves the active input at PS5 — the ON branch of
`denon_powerChanged` never assigns the screen state, so it does not set the
active input to `None`. -/
theorem powerOn_active_not_none_cex :
    activeOf ((denon_powerChanged PowerMsg.powerOn SM_SCREEN_PLAY_PS5
        zeroCounters none).1) = ActiveInput.ps5 ∧
    ActiveInput.ps5 ≠ ActiveInput.noneActive := by
  exact ⟨rfl, by decide⟩

/-- C9 amended: on a power-on notification the handler re-loads the
persistent counter store into memory and requests the current active-input
selection from the receiver; it does not modify the active input (the screen
state), which therefore stays whatever it was — `None` in the normal flow,
because the power-off and disconnect handlers already left a non-play
screen — until the input-changed notification arrives. -/
theorem powerOn_reloads_and_requests (scr : Nat) (c : Counters) (f : FsFile) :
    (denon_powerChanged PowerMsg.powerOn scr c f).1 = scr ∧
    (denon_powerChanged PowerMsg.powerOn scr c f).2.1 = (fs_load_data_file c f).1 ∧
    (denon_powerChanged PowerMsg.powerOn scr c f).2.2.1 = (fs_load_data_file c f).2 ∧
    (denon_powerChanged PowerMsg.powerOn scr c f).2.2.2 = true := by
  exact ⟨rfl, rfl, rfl, rfl⟩

/-- A `uint32_t` increment that does not overflow is a plain increment. -/
theorem u32inc_of_lt (x : Nat) (h : x + 1 < 2 ^ 32) : u32inc x = x + 1 :=
  Nat.mod_eq_of_lt h

/-- The minute-tick block on the PS5 play screen. -/
theorem minuteTick_ps5 (c : Counters) :
    minuteTick SM_SCREEN_PLAY_PS5 c =
      ({ c with
          time_ps5_today_mins := u32inc c.time_ps5_today_mins
          time_ps5_week_mins := u32inc c.time_ps5_week_mins
          time_ps5_month_mins := u32inc c.time_ps5_month_mins
          time_ps5_year_mins := u32inc c.time_ps5_year_mins
          time_ps5_sum_mins := u32inc c.time_ps5_sum_mins }, true) := rfl

/-- The minute-tick block on the Switch play screen. -/
theorem minuteTick_switch (c : Counters) :
    minuteTick SM_SCREEN_PLAY_SWITCH c =
      ({ c with
          time_switch_today_mins := u32inc c.time_switch_today_mins
          time_switch_week_mins := u32inc c.time_switch_week_mins
          time_switch_month_mins := u32inc c.time_switch_month_mins
          time_switch_year_mins := u32inc c.time_switch_year_mins
          time_switch_sum_mins := u32inc c.time_switch_sum_mins }, true) := rfl

/-- The minute-tick block on any non-play screen does nothing. -/
theorem minuteTick_other (scr : Nat) (c : Counters)
    (h1 : scr ≠ SM_SCREEN_PLAY_PS5) (h2 : scr ≠ SM_SCREEN_PLAY_SWITCH) :
    minuteTick scr c = (c, false) := by
  unfold minuteTick
  simp [h1, h2]

/-- Away from the session-end trigger the rollover step does nothing. -/
theorem dayRollover_skip (h mi d mo w : Nat) (c : Counters)
    (hnt : ¬(h = CLOCK_ENDSESSION_HOUR ∧ mi = 0)) :
    dayRollover h mi d mo w c = (c, false) := by
  unfold dayRollover
  simp [hnt]

/-- One minute-tick firing of `time_handle` away from the trigger minute, on
the PS5 play screen: increment the five PS5 counters and save. -/
theorem timeHandle_tick_ps5 (h mi d mo w : Nat) (c : Counters) (f : FsFile)
    (hnt : ¬(h = CLOCK_ENDSESSION_HOUR ∧ mi = 0)) :
    timeHandle true SM_SCREEN_PLAY_PS5 h mi d mo w (c, f) =
      ((minuteTick SM_SCREEN_PLAY_PS5 c).1,
        fs_save_data_file (minuteTick SM_SCREEN_PLAY_PS5 c).1 f) := by
  unfold timeHandle
  simp [minuteTick_ps5, dayRollover_skip _ _ _ _ _ _ hnt]

/-- One minute-tick firing of `time_handle` away from the trigger minute, on
the Switch play screen. -/
theorem timeHandle_tick_switch (h mi d mo w : Nat) (c : Counters) (f : FsFile)
    (hnt : ¬(h = CLOCK_ENDSESSION_HOUR ∧ mi = 0)) :
    timeHandle true SM_SCREEN_PLAY_SWITCH h mi d mo w (c, f) =
      ((minuteTick SM_SCREEN_PLAY_SWITCH c).1,
        fs_save_data_file (minuteTick SM_SCREEN_PLAY_SWITCH c).1 f) := by
  unfold timeHandle
  simp [minuteTick_switch, dayRollover_skip _ _ _ _ _ _ hnt]

/-- Iterating the PS5 minute tick adds the number of firings to each of the
five PS5 counters while none of them overflows, and touches nothing else. -/
theorem minuteTicks_ps5_counters (h mi d mo w : Nat)
    (hnt : ¬(h = CLOCK_ENDSESSION_HOUR ∧ mi = 0)) :
    ∀ (n : Nat) (c : Counters) (f : FsFile),
      c.time_ps5_today_mins + n < 2 ^ 32 →
      c.time_ps5_week_mins + n < 2 ^ 32 →
      c.time_ps5_month_mins + n < 2 ^ 32 →
      c.time_ps5_year_mins + n < 2 ^ 32 →
      c.time_ps5_sum_mins + n < 2 ^ 32 →
      (minuteTicks SM_SCREEN_PLAY_PS5 h mi d mo w n (c, f)).1 =
        { c with
            time_ps5_today_mins := c.time_ps5_today_mins + n
            time_ps5_week_mins := c.time_ps5_week_mins + n
            time_ps5_month_mins := c.time_ps5_month_mins + n
            time_ps5_year_mins := c.time_ps5_year_mins + n
            time_ps5_sum_mins := c.time_ps5_sum_mins + n } := by
  intro n
  induction n with
  | zero => intro c f _ _ _ _ _; simp [minuteTicks]
  | succ k ih =>
      intro c f b1 b2 b3 b4 b5
      rw [minuteTicks, timeHandle_tick_ps5 _ _ _ _ _ _ _ hnt, minuteTick_ps5]
      rw [u32inc_of_lt _ (by omega), u32inc_of_lt _ (by omega),
        u32inc_of_lt _ (by omega), u32inc_of_lt _ (by omega),
        u32inc_of_lt _ (by omega)]
      rw [ih _ _ (by simp; omega) (by simp; omega) (by simp; omega)
        (by simp; omega) (by simp; omega)]
      simp
      constructor <;> omega

/-- Iterating the Switch minute tick, symmetrically. -/
theorem minuteTicks_switch_counters (h mi d mo w : Nat)
    (hnt : ¬(h = CLOCK_ENDSESSION_HOUR ∧ mi = 0)) :
    ∀ (n : Nat) (c : Counters) (f : FsFile),
      c.time_switch_today_mins + n < 2 ^ 32 →
      c.time_switch_week_mins + n < 2 ^ 32 →
      c.time_switch_month_mins + n < 2 ^ 32 →
      c.time_switch_year_mins + n < 2 ^ 32 →
      c.time_switch_sum_mins + n < 2 ^ 32 →
      (minuteTicks SM_SCREEN_PLAY_SWITCH h mi d mo w n (c, f)).1 =
        { c with
            time_switch_today_mins := c.time_switch_today_mins + n
            time_switch_week_mins := c.time_switch_week_mins + n
            time_switch_month_mins := c.time_switch_month_mins + n
            time_switch_year_mins := c.time_switch_year_mins + n
            time_switch_sum_mins := c.time_switch_sum_mins + n } := by
  intro n
  induction n with
  | zero => intro c f _ _ _ _ _; simp [minuteTicks]
  | succ k ih =>
      intro c f b1 b2 b3 b4 b5
      rw [minuteTicks, timeHandle_tick_switch _ _ _ _ _ _ _ hnt, minuteTick_switch]
      rw [u32inc_of_lt _ (by omega), u32inc_of_lt _ (by omega),
        u32inc_of_lt _ (by omega), u32inc_of_lt _ (by omega),
        u32inc_of_lt _ (by omega)]
      rw [ih _ _ (by simp; omega) (by simp; omega) (by simp; omega)
        (by simp; omega) (by simp; omega)]
      simp
      constructor <;> omega

/-- One call of `time_handle` never turns a missing or parseable data file
into an unparseable one. -/
theorem timeHandle_file_not_bad (e : Bool) (scr h mi d mo w : Nat)
    (c : Counters) (f : FsFile) (hf : f ≠ some FileContent.bad) :
    (timeHandle e scr h mi d mo w (c, f)).2 ≠ some FileContent.bad := by
  unfold timeHandle
  dsimp only
  split
  · split
    · exact fs_save_not_bad _ _ hf
    · exact hf
  · split
    · exact fs_save_not_bad _ _ hf
    · exact hf

/-- A run of minute-tick firings never turns a missing or parseable data
file into an unparseable one. -/
theorem minuteTicks_file_not_bad (scr h mi d mo w : Nat) :
    ∀ (n : Nat) (c : Counters) (f : FsFile), f ≠ some FileContent.bad →
      (minuteTicks scr h mi d mo w n (c, f)).2 ≠ some FileContent.bad := by
  intro n
  induction n with
  | zero => intro c f hf; exact hf
  | succ k ih =>
      intro c f hf
      rw [minuteTicks]
      exact ih (timeHandle true scr h mi d mo w (c, f)).1
        (timeHandle true scr h mi d mo w (c, f)).2
        (timeHandle_file_not_bad true scr h mi d mo w c f hf)

/-- C2 counterexample: the counters are 32-bit and wrap: one minute-tick
firing of `time_handle` on the PS5 play screen starting from
`time_ps5_today_mins = 2^32 - 1` leaves 0, not the 2^32 the claimed exact
increase would require. -/
theorem minute_tick_overflow_cex :
    ((minuteTicks SM_SCREEN_PLAY_PS5 12 30 5 3 2 1
        ({ zeroCounters with time_ps5_today_mins := 4294967295 }, none)).1).time_ps5_today_mins
      = 0 ∧ (0 : Nat) ≠ 4294967295 + 1 := by
  exact ⟨by decide, by decide⟩

/-- C2 amended: away from the session-end trigger minute, a sequence of `n`
minute-tick firings of `time_handle` on the PS5 play screen adds exactly `n`
to each of the five PS5 counters and leaves the five Switch counters
unchanged, provided none of the five incremented counters exceeds the
`uint32_t` range (each counter wraps modulo 2^32 otherwise); symmetrically
with PS5 and Switch swapped; and a minute tick while no play screen is
active changes no counter. -/
theorem minute_tick_accounting :
    (∀ (h mi d mo w n : Nat) (c : Counters) (f : FsFile),
      ¬(h = CLOCK_ENDSESSION_HOUR ∧ mi = 0) →
      c.time_ps5_today_mins + n < 2 ^ 32 →
      c.time_ps5_week_mins + n < 2 ^ 32 →
      c.time_ps5_month_mins + n < 2 ^ 32 →
      c.time_ps5_year_mins + n < 2 ^ 32 →
      c.time_ps5_sum_mins + n < 2 ^ 32 →
      (minuteTicks SM_SCREEN_PLAY_PS5 h mi d mo w n (c, f)).1 =
        { c with
            time_ps5_today_mins := c.time_ps5_today_mins + n
            time_ps5_week_mins := c.time_ps5_week_mins + n
            time_ps5_month_mins := c.time_ps5_month_mins + n
            time_ps5_year_mins := c.time_ps5_year_mins + n
            time_ps5_sum_mins := c.time_ps5_sum_mins + n }) ∧
    (∀ (h mi d mo w n : Nat) (c : Counters) (f : FsFile),
      ¬(h = CLOCK_ENDSESSION_HOUR ∧ mi = 0) →
      c.time_switch_today_mins + n < 2 ^ 32 →
      c.time_switch_week_mins + n < 2 ^ 32 →
      c.time_switch_month_mins + n < 2 ^ 32 →
      c.time_switch_year_mins + n < 2 ^ 32 →
      c.time_switch_sum_mins + n < 2 ^ 32 →
      (minuteTicks SM_SCREEN_PLAY_SWITCH h mi d mo w n (c, f)).1 =
        { c with
            time_switch_today_mins := c.time_switch_today_mins + n
            time_switch_week_mins := c.time_switch_week_mins + n
            time_switch_month_mins := c.time_switch_month_mins + n
            time_switch_year_mins := c.time_switch_year_mins + n
            time_switch_sum_mins := c.time_switch_sum_mins + n }) ∧
    (∀ (h mi d mo w scr : Nat) (c : Counters) (f : FsFile),
      ¬(h = CLOCK_ENDSESSION_HOUR ∧ mi = 0) →
      scr ≠ SM_SCREEN_PLAY_PS5 → scr ≠ SM_SCREEN_PLAY_SWITCH →
      (timeHandle true scr h mi d mo w (c, f)).1 = c) := by
  refine ⟨?_, ?_, ?_⟩
  · intro h mi d mo w n c f hnt b1 b2 b3 b4 b5
    exact minuteTicks_ps5_counters h mi d mo w hnt n c f b1 b2 b3 b4 b5
  · intro h mi d mo w n c f hnt b1 b2 b3 b4 b5
    exact minuteTicks_switch_counters h mi d mo w hnt n c f b1 b2 b3 b4 b5
  · intro h mi d mo w scr c f hnt h1 h2
    unfold timeHandle
    simp [minuteTick_other scr c h1 h2, dayRollover_skip _ _ _ _ _ _ hnt]

/-- Witness for the amended C2 at concrete inputs: three PS5 ticks at 12:30
from the boot state give 3 in each PS5 counter, three Switch ticks give 3 in
each Switch counter, and an idle tick changes nothing. -/
theorem minute_tick_accounting_w :
    ¬((12 : Nat) = CLOCK_ENDSESSION_HOUR ∧ (30 : Nat) = 0) ∧
    (0 : Nat) + 3 < 2 ^ 32 ∧
    (minuteTicks SM_SCREEN_PLAY_PS5 12 30 5 3 2 3 (zeroCounters, none)).1 =
      { zeroCounters with
          time_ps5_today_mins := 3, time_ps5_week_mins := 3
          time_ps5_month_mins := 3, time_ps5_year_mins := 3
          time_ps5_sum_mins := 3 } ∧
    (minuteTicks SM_SCREEN_PLAY_SWITCH 12 30 5 3 2 3 (zeroCounters, none)).1 =
      { zeroCounters with
          time_switch_today_mins := 3, time_switch_week_mins := 3
          time_switch_month_mins := 3, time_switch_year_mins := 3
          time_switch_sum_mins := 3 } ∧
    (timeHandle true SM_SCREEN_IDLE 12 30 5 3 2 (zeroCounters, none)).1 =
      zeroCounters := by
  refine ⟨by decide, by decide, ?_, ?_, ?_⟩
  · exact minute_tick_accounting.1 12 30 5 3 2 3 zeroCounters none (by decide)
      (by decide) (by decide) (by decide) (by decide) (by decide)
  · exact minute_tick_accounting.2.1 12 30 5 3 2 3 zeroCounters none (by decide)
      (by decide) (by decide) (by decide) (by decide) (by decide)
  · exact minute_tick_accounting.2.2 12 30 5 3 2 SM_SCREEN_IDLE zeroCounters none
      (by decide) (by decide) (by decide)

/-- C8 counterexample: the counters are 32-bit and wrap, so with
`time_ps5_today_mins = 2^32 - 1`, three minute ticks on the PS5 play screen
followed by an input change to the Switch leave that counter at 2, not
increased by 3. -/
theorem input_changed_overflow_cex :
    ((scenarioB AVR_INPUT_PS5 AVR_INPUT_SWITCH 12 30 5 3 2
        ({ zeroCounters with time_ps5_today_mins := 4294967295 },
          none)).2.1).time_ps5_today_mins = 2 ∧
    (2 : Nat) ≠ 4294967295 + 3 := by
  exact ⟨by decide, by decide⟩

/-- C8 amended: `denon_inputChanged` first saves the data file from the
current counters and never changes the ten counter values; it then selects
the PS5 play screen when the reported identifier equals the configured PS5
input, the Switch play screen when it equals the configured Switch input,
and the idle screen (Active Input `None`) for any other identifier.
Consequently, for distinct configured identifiers, a non-corrupt stored
record, a clock away from the trigger minute, and PS5 counters that stay
within `uint32_t` range, three minute ticks on the PS5 play screen followed
by an input change to the Switch leave the Switch play screen active, the
five PS5 counters increased by exactly 3, the Switch counters unchanged, and
a parseable data file holding the increased PS5 values. -/
theorem input_changed_spec :
    (∀ (pid sid resp : String) (c : Counters) (f : FsFile),
      (denon_inputChanged pid sid resp c f).2.1 = c ∧
      (denon_inputChanged pid sid resp c f).2.2 = fs_save_data_file c f ∧
      (resp = pid → (denon_inputChanged pid sid resp c f).1 = SM_SCREEN_PLAY_PS5) ∧
      (resp ≠ pid → resp = sid →
        (denon_inputChanged pid sid resp c f).1 = SM_SCREEN_PLAY_SWITCH) ∧
      (resp ≠ pid → resp ≠ sid →
        (denon_inputChanged pid sid resp c f).1 = SM_SCREEN_IDLE)) ∧
    (∀ (pid sid : String) (h mi d mo w : Nat) (c : Counters) (f : FsFile),
      sid ≠ pid →
      ¬(h = CLOCK_ENDSESSION_HOUR ∧ mi = 0) →
      f ≠ some FileContent.bad →
      c.time_ps5_today_mins + 3 < 2 ^ 32 →
      c.time_ps5_week_mins + 3 < 2 ^ 32 →
      c.time_ps5_month_mins + 3 < 2 ^ 32 →
      c.time_ps5_year_mins + 3 < 2 ^ 32 →
      c.time_ps5_sum_mins + 3 < 2 ^ 32 →
      (scenarioB pid sid h mi d mo w (c, f)).1 = SM_SCREEN_PLAY_SWITCH ∧
      (scenarioB pid sid h mi d mo w (c, f)).2.1 =
        { c with
            time_ps5_today_mins := c.time_ps5_today_mins + 3
            time_ps5_week_mins := c.time_ps5_week_mins + 3
            time_ps5_month_mins := c.time_ps5_month_mins + 3
            time_ps5_year_mins := c.time_ps5_year_mins + 3
            time_ps5_sum_mins := c.time_ps5_sum_mins + 3 } ∧
      (∃ dd : Doc,
        (scenarioB pid sid h mi d mo w (c, f)).2.2 = some (FileContent.ok dd) ∧
        docGet dd TIME_PS5_TODAY = some (c.time_ps5_today_mins + 3) ∧
        docGet dd TIME_PS5_WEEK = some (c.time_ps5_week_mins + 3) ∧
        docGet dd TIME_PS5_MONTH = some (c.time_ps5_month_mins + 3) ∧
        docGet dd TIME_PS5_YEAR = some (c.time_ps5_year_mins + 3) ∧
        docGet dd TIME_PS5_SUM = some (c.time_ps5_sum_mins + 3) ∧
        docGet dd TIME_SWITCH_TODAY = some c.time_switch_today_mins ∧
        docGet dd TIME_SWITCH_WEEK = some c.time_switch_week_mins ∧
        docGet dd TIME_SWITCH_MONTH = some c.time_switch_month_mins ∧
        docGet dd TIME_SWITCH_YEAR = some c.time_switch_year_mins ∧
        docGet dd TIME_SWITCH_SUM = some c.time_switch_sum_mins)) := by
  constructor
  · intro pid sid resp c f
    unfold denon_inputChanged
    refine ⟨?_, ?_, ?_, ?_, ?_⟩
    · split_ifs <;> rfl
    · split_ifs <;> rfl
    · intro hr; simp [hr]
    · intro hr1 hr2; subst hr2; simp [hr1]
    · intro hr1 hr2; simp [hr1, hr2]
  · intro pid sid h mi d mo w c f hds hnt hf b1 b2 b3 b4 b5
    have hcnt := minuteTicks_ps5_counters h mi d mo w hnt 3 c f b1 b2 b3 b4 b5
    have hfile := minuteTicks_file_not_bad SM_SCREEN_PLAY_PS5 h mi d mo w 3 c f hf
    obtain ⟨d0, hd0⟩ :=
      fs_save_ok (minuteTicks SM_SCREEN_PLAY_PS5 h mi d mo w 3 (c, f)).1
        (minuteTicks SM_SCREEN_PLAY_PS5 h mi d mo w 3 (c, f)).2 hfile
    have hlook :=
      updateDoc_lookups (minuteTicks SM_SCREEN_PLAY_PS5 h mi d mo w 3 (c, f)).1 d0
    refine ⟨?_, ?_, ?_⟩
    · unfold scenarioB denon_inputChanged
      simp [hds]
    · unfold scenarioB denon_inputChanged
      simp only []
      rw [hcnt] at *
      simp [hds, hcnt]
    · refine ⟨updateDoc (minuteTicks SM_SCREEN_PLAY_PS5 h mi d mo w 3 (c, f)).1 d0,
        ?_, ?_, ?_, ?_, ?_, ?_, ?_, ?_, ?_, ?_, ?_⟩
      · unfold scenarioB denon_inputChanged
        simp [hds, hd0]
      all_goals rw [hcnt] at hlook; rw [hcnt]
      · exact hlook.1
      · exact hlook.2.1
      · exact hlook.2.2.1
      · exact hlook.2.2.2.1
      · exact hlook.2.2.2.2.1
      · exact hlook.2.2.2.2.2.1
      · exact hlook.2.2.2.2.2.2.1
      · exact hlook.2.2.2.2.2.2.2.1
      · exact hlook.2.2.2.2.2.2.2.2.1
      · exact hlook.2.2.2.2.2.2.2.2.2

/-- Witness for the amended C8 at concrete inputs: with the configured
identifiers distinct, Scenario B from the boot state ends on the Switch play
screen. -/
theorem input_changed_spec_w :
    AVR_INPUT_SWITCH ≠ AVR_INPUT_PS5 ∧
    (scenarioB AVR_INPUT_PS5 AVR_INPUT_SWITCH 12 30 5 3 2
        (zeroCounters, none)).1 = SM_SCREEN_PLAY_SWITCH := by
  refine ⟨by decide, ?_⟩
  exact (input_changed_spec.2 AVR_INPUT_PS5 AVR_INPUT_SWITCH 12 30 5 3 2
    zeroCounters none (by decide) (by decide) (by decide) (by decide)
    (by decide) (by decide) (by decide) (by decide)).1
